import Mathlib

/-!
Verification development for the RoadFighter repository: a shallow embedding
of the token-gated, entry-fee-funded game-session subsystem (shared utility
functions, auth-gate middleware, token-reset route handler, session-status
state machine and settlement engine), together with theorems settling the
frozen claims about it.

Modelling conventions:
- JS `Date` instants are integers of milliseconds since the Unix epoch (ℤ).
- Monetary amounts (JS numbers holding dollar values) are exact rationals (ℚ);
  the decimal reading of the JS arithmetic is used, and every concrete input a
  theorem evaluates is one where the IEEE-754 double computation is exact, so
  the model and the JS code agree there (the repository's own unit tests pin
  the same outputs, e.g. calculatePaymentSplit at 100 and at 10.50).
- Fallible route handlers return explicit result values; Express middleware
  that responds without calling next() short-circuits the downstream handler,
  which is modelled by returning the state unchanged alongside the error
  response.
- Operations whose bodies are TODO stubs in the repository (settlement, the
  session state-machine transitions, the join-route wiring) are modelled from
  the spec; each such definition carries a doc comment starting with
  "Modelled from the spec:".
-/

namespace RoadFighter

/-- Milliseconds in one UTC day (JS time has no leap seconds, so every UTC
calendar day spans exactly 86400000 ms of JS time). -/
def msPerDay : ℤ := 86400000

/-- Embeds getMidnightUTC from src/src/shared/utils/index.ts (55-59): copies
the date and calls setUTCHours(0,0,0,0), i.e. truncates the instant to the
start of the UTC calendar day containing it. -/
def getMidnightUTC (t : ℤ) : ℤ := t - t % msPerDay

/-- Embeds getNextMidnightUTC from src/src/shared/utils/index.ts (61-65):
takes the midnight of the given instant and advances it one calendar day via
setUTCDate(getUTCDate()+1), which in JS time is exactly 86400000 ms. -/
def getNextMidnightUTC (t : ℤ) : ℤ := getMidnightUTC t + msPerDay

/-- Embeds JS Number.prototype.toFixed(2) (followed by Number(...)) on the
exact-decimal reading: round x to the nearest multiple of 1/100, where the
ECMA-262 algorithm picks the larger candidate integer on ties; for rational x
that is the floor of 100x + 1/2. -/
def toFixed2 (x : ℚ) : ℚ := ((⌊x * 100 + 1/2⌋ : ℤ) : ℚ) / 100

/-- Result record of calculatePaymentSplit. -/
structure PaymentSplit where
  developer : ℚ
  creator : ℚ
  winner : ℚ
deriving DecidableEq

/-- Embeds calculatePaymentSplit from src/src/shared/utils/index.ts (81-91):
each share is computed independently as a percentage of the total and rounded
with toFixed(2); no share absorbs the rounding remainder of the others. -/
def calculatePaymentSplit (totalAmount : ℚ) : PaymentSplit :=
  { developer := toFixed2 (totalAmount * (25/100))
    creator := toFixed2 (totalAmount * (25/100))
    winner := toFixed2 (totalAmount * (50/100)) }

/-- Embeds validateEntryFee from src/src/shared/utils/index.ts (4-6); every
rational is a finite number, so the Number.isFinite conjunct is true here. -/
def validateEntryFee (amount : ℚ) : Bool :=
  (1 ≤ amount) && (amount ≤ 100)

/-- Embeds validateSessionSize from src/src/shared/utils/index.ts (13-15):
bounds check plus Number.isInteger, which on the exact rational reading is the
condition that the denominator is 1. -/
def validateSessionSize (playerCount : ℚ) : Bool :=
  (1 ≤ playerCount) && (playerCount ≤ 8) && (playerCount.den == 1)

/-- Per-user token row as selected by the middleware and the token routes:
tokensRemaining and lastTokenReset (prisma/schema.prisma, model User). -/
structure TokenRow where
  tokensRemaining : ℤ
  lastTokenReset : ℤ
deriving DecidableEq

/-- Decision of the requireTokens middleware. -/
inductive TokenGateDecision
  | allow
  | deny (status : ℕ) (code : String) (required available nextReset : ℤ)
deriving DecidableEq

/-- Embeds requireTokens from src/src/server/middleware/auth.ts (201-270): it
reads the user's tokensRemaining (lastTokenReset is read only to be cached)
and, if tokens < requiredTokens, responds 403 NO_TOKENS_REMAINING with the
required and available counts and nextReset = getNextTokenReset() (the next
UTC midnight after now); otherwise it calls next(). The middleware contains
no reset logic of any kind: the stored count and lastTokenReset are never
written. -/
def requireTokens (requiredTokens : ℤ) (user : TokenRow) (now : ℤ) :
    TokenGateDecision :=
  if user.tokensRemaining < requiredTokens then
    .deny 403 "NO_TOKENS_REMAINING" requiredTokens user.tokensRemaining
      (getNextMidnightUTC now)
  else .allow

/-- Decision of the requireCredits middleware. -/
inductive CreditGateDecision
  | allow
  | deny (status : ℕ) (code : String) (required available deficit : ℚ)
deriving DecidableEq

/-- Embeds requireCredits from src/src/server/middleware/auth.ts (273-324):
reads the user's creditsBalance and, if balance < requiredAmount, responds
403 INSUFFICIENT_CREDITS with data required, available and
deficit = requiredAmount - balance; otherwise it calls next(). -/
def requireCredits (requiredAmount balance : ℚ) : CreditGateDecision :=
  if balance < requiredAmount then
    .deny 403 "INSUFFICIENT_CREDITS" requiredAmount balance
      (requiredAmount - balance)
  else .allow

/-- TransactionType enum from prisma/schema.prisma (101-110). -/
inductive TransactionType
  | ENTRY_FEE
  | PRIZE_PAYOUT
  | DEVELOPER_SPLIT
  | CREATOR_SPLIT
  | CREDIT_PURCHASE
  | REFUND
deriving DecidableEq

/-- Transaction row from prisma/schema.prisma (121-140), restricted to the
fields the claims inspect. -/
structure Txn where
  userId : String
  sessionId : Option String
  amount : ℚ
  txnType : TransactionType
deriving DecidableEq

/-- Durable store relevant to a join attempt: the requesting user's token
row, the Participant rows as (sessionId, userId) pairs (unique per pair in
the schema), and the ledger transactions. -/
structure JoinStore where
  user : TokenRow
  participants : List (String × String)
  transactions : List Txn
deriving DecidableEq

/-- HTTP-level reply recorded by the embedded route pipeline. -/
inductive HttpReply
  | ok
  | err (status : ℕ) (code : String)
deriving DecidableEq

/-- Modelled from the spec: the join-route wiring. The body of
POST /api/sessions/:id/join in src/src/server/routes/session.ts is a TODO
stub; per the spec (§4.3, §6) the join operation is gated by the token check,
which the repository implements as the requireTokens middleware embedded
above (one token required per join). Express semantics: a middleware that
responds without calling next() short-circuits, so the downstream handler —
whatever its eventual implementation — never runs and the store is unchanged. -/
def gatedJoin (handler : JoinStore → JoinStore × HttpReply) (st : JoinStore)
    (now : ℤ) : JoinStore × HttpReply :=
  match requireTokens 1 st.user now with
  | .deny status code _ _ _ => (st, .err status code)
  | .allow => handler st

/-- Reply of the POST /api/user/tokens/reset handler. -/
inductive ResetReply
  | alreadyReset (status : ℕ) (code : String) (tokensRemaining lastReset : ℤ)
  | resetOk (tokensRemaining lastReset : ℤ)
deriving DecidableEq

/-- Embeds the POST /tokens/reset handler of the user routes (128-193):
computes lastMidnight = now truncated with setUTCHours(0,0,0,0); if the
user's lastTokenReset ≥ lastMidnight it responds 400 TOKENS_ALREADY_RESET and
leaves the row unchanged; otherwise it updates tokensRemaining to
TOKEN_CONFIG.DAILY_TOKEN_COUNT (= 3, src/src/shared/constants/index.ts) and
lastTokenReset to now. -/
def tokensResetHandler (user : TokenRow) (now : ℤ) : TokenRow × ResetReply :=
  let lastMidnight := getMidnightUTC now
  if lastMidnight ≤ user.lastTokenReset then
    (user, .alreadyReset 400 "TOKENS_ALREADY_RESET" user.tokensRemaining
      user.lastTokenReset)
  else
    (⟨3, now⟩, .resetOk 3 now)

/-- Reply of POST /api/sessions/create. -/
inductive CreateSessionReply
  | created (entryFee : ℚ) (maxPlayers : Option ℚ)
  | validationError (status : ℕ) (code : String)
deriving DecidableEq

/-- Embeds createSessionSchema and the POST /create route from
src/src/server/routes/session.ts (8-26): zod validates entryFee as a number
in [1,100] and maxPlayers as an optional number in [1,8]; on failure the
route throws ValidationError, which the errorHandler turns into HTTP 400 with
code VALIDATION_ERROR; on success the route proceeds with the validated
data. -/
def createSession (entryFee : ℚ) (maxPlayers : Option ℚ) : CreateSessionReply :=
  if (1 ≤ entryFee && entryFee ≤ 100) &&
      (match maxPlayers with
       | none => true
       | some m => 1 ≤ m && m ≤ 8) then
    .created entryFee maxPlayers
  else .validationError 400 "VALIDATION_ERROR"

/-- SessionStatus enum from prisma/schema.prisma (32-40). -/
inductive SessionStatus
  | WAITING
  | STARTING
  | ACTIVE
  | COMPLETED
  | CANCELLED
deriving DecidableEq, Fintype

/-- Modelled from the spec: the start operation of the Session State Machine
(§4.3) — the session lifecycle handlers are TODO stubs in the repository.
start(sessionId) transitions WAITING→STARTING and STARTING→ACTIVE; from any
other status it is rejected (none = status unchanged). -/
def startStep : SessionStatus → Option SessionStatus
  | .WAITING => some .STARTING
  | .STARTING => some .ACTIVE
  | _ => none

/-- Modelled from the spec: complete(sessionId, results) (§4.3) is allowed
only from ACTIVE and sets the status to COMPLETED; otherwise rejected. -/
def completeStep : SessionStatus → Option SessionStatus
  | .ACTIVE => some .COMPLETED
  | _ => none

/-- Modelled from the spec: cancel(sessionId, reason) (§4.3) is allowed from
WAITING, STARTING or ACTIVE and sets the status to CANCELLED; otherwise
rejected. -/
def cancelStep : SessionStatus → Option SessionStatus
  | .WAITING => some .CANCELLED
  | .STARTING => some .CANCELLED
  | .ACTIVE => some .CANCELLED
  | _ => none

/-- The transitions actually performed by the three status-changing
operations: a step from a to b exists iff some operation maps a to b. (join
and recordInput never change the status.) -/
def opTransition (a b : SessionStatus) : Bool :=
  (startStep a == some b) || (completeStep a == some b) || (cancelStep a == some b)

/-- The legal transition relation as the spec states it: WAITING → STARTING
→ ACTIVE → COMPLETED, plus a transition to CANCELLED from any of the three
non-terminal states. -/
def legalTransition (a b : SessionStatus) : Bool :=
  (a == .WAITING && b == .STARTING) ||
  (a == .STARTING && b == .ACTIVE) ||
  (a == .ACTIVE && b == .COMPLETED) ||
  (!(a == .COMPLETED) && !(a == .CANCELLED) && b == .CANCELLED)

/-- Ledger state seen by the Settlement Engine: the per-session settlement
flags and the transaction rows. -/
structure SettlementState where
  settledSessions : List String
  transactions : List Txn
deriving DecidableEq

/-- Modelled from the spec: the 25/25/50 split of §4.4 in integer cents with
the winner absorbing the rounding remainder so the three parts sum to the
pool. (Only the shape matters for the settled claim; the amounts are not at
issue there.) -/
def settlementSplit (poolCents : ℕ) : ℕ × ℕ × ℕ :=
  let dev := poolCents * 25 / 100
  let creator := poolCents * 25 / 100
  (dev, creator, poolCents - dev - creator)

/-- Modelled from the spec: settle(sessionId) (§4.4) — the Settlement Engine
is an unimplemented TODO in the repository (the session routes are stubs and
no settlement code exists); the spec specifies it as idempotent, guarded by a
per-session settlement flag / unique constraint, recording one Transaction
per split share (developer split, creator split, winner prize payout)
against the session, all-or-nothing. A settle call for an already-settled
session is a no-op. -/
def settle (sessionId : String) (poolCents : ℕ)
    (devId creatorId winnerId : String) (st : SettlementState) :
    SettlementState :=
  if sessionId ∈ st.settledSessions then st
  else
    let s := settlementSplit poolCents
    { settledSessions := sessionId :: st.settledSessions
      transactions :=
        ⟨devId, some sessionId, (s.1 : ℚ) / 100, .DEVELOPER_SPLIT⟩ ::
        ⟨creatorId, some sessionId, (s.2.1 : ℚ) / 100, .CREATOR_SPLIT⟩ ::
        ⟨winnerId, some sessionId, (s.2.2 : ℚ) / 100, .PRIZE_PAYOUT⟩ ::
        st.transactions }

/-- The split Transactions recorded against a given session: transactions
referencing the session whose type is one of the three settlement split
types. -/
def splitTxnsFor (sessionId : String) (txns : List Txn) : List Txn :=
  txns.filter (fun t =>
    t.sessionId == some sessionId &&
    (t.txnType == .DEVELOPER_SPLIT || t.txnType == .CREATOR_SPLIT ||
     t.txnType == .PRIZE_PAYOUT))

end RoadFighter

namespace RoadFighter

/-- Claim C9: for every instant t, getMidnightUTC is idempotent,
getMidnightUTC t ≤ t, getNextMidnightUTC t = getMidnightUTC t + 24 hours, and
t lies in the half-open day interval [getMidnightUTC t, getNextMidnightUTC t). -/
theorem getMidnightUTC_properties (t : ℤ) :
    getMidnightUTC (getMidnightUTC t) = getMidnightUTC t ∧
    getMidnightUTC t ≤ t ∧
    getNextMidnightUTC t = getMidnightUTC t + 24 * 60 * 60 * 1000 ∧
    getMidnightUTC t ≤ t ∧ t < getNextMidnightUTC t := by
  unfold getNextMidnightUTC getMidnightUTC msPerDay
  omega

/-- Claim C1 (code_bug evidence): calculatePaymentSplit does not make the
three parts sum to the pool. At the pool 10.50 — an amount whose double
computation is exact and which the repository's own unit test pins to exactly
these outputs — the shares are 2.63, 2.63 and 5.25, which sum to 10.51, one
cent more than the pool; no remainder is absorbed by the winner's share. -/
theorem calculatePaymentSplit_sum_breaks_at_ten_fifty :
    calculatePaymentSplit (1050/100) =
      { developer := 263/100, creator := 263/100, winner := 525/100 } ∧
    (263/100 + 263/100 + 525/100 : ℚ) = 1051/100 ∧
    (1051/100 : ℚ) ≠ (1050/100 : ℚ) := by
  refine ⟨?_, by norm_num, by norm_num⟩
  norm_num [calculatePaymentSplit, toFixed2]

/-- Claim C10: validateSessionSize accepts only integers — for every rational
with denominator other than 1 (a non-integer number), it returns false
regardless of the bounds. -/
theorem validateSessionSize_rejects_nonintegers (x : ℚ) (h : x.den ≠ 1) :
    validateSessionSize x = false := by
  have hden : (x.den == 1) = false := by
    simpa using h
  simp [validateSessionSize, hden]

/-- Witness for C10 at the concrete non-integer 4.5 = 9/2, which lies inside
the documented bounds yet is rejected. -/
theorem validateSessionSize_rejects_nonintegers_witness :
    ((9 : ℚ)/2).den ≠ 1 ∧ validateSessionSize ((9 : ℚ)/2) = false := by
  have hden : ((9 : ℚ)/2).den = 2 := by norm_num
  exact ⟨by omega, validateSessionSize_rejects_nonintegers ((9 : ℚ)/2) (by omega)⟩

/-- Claim C5: session creation succeeds exactly when entryFee ∈ [1,100] and
maxPlayers ∈ [1,8], and fails with ValidationError (HTTP 400,
VALIDATION_ERROR) for every input outside these bounds. -/
theorem createSession_validates_bounds (fee mp : ℚ) :
    (createSession fee (some mp) = .created fee (some mp) ↔
      1 ≤ fee ∧ fee ≤ 100 ∧ 1 ≤ mp ∧ mp ≤ 8) ∧
    (createSession fee (some mp) = .validationError 400 "VALIDATION_ERROR" ↔
      ¬(1 ≤ fee ∧ fee ≤ 100 ∧ 1 ≤ mp ∧ mp ≤ 8)) := by
  have key : ((1 ≤ fee && fee ≤ 100) && (1 ≤ mp && mp ≤ 8)) = true ↔
      (1 ≤ fee ∧ fee ≤ 100 ∧ 1 ≤ mp ∧ mp ≤ 8) := by
    simp [Bool.and_eq_true, decide_eq_true_eq, and_assoc]
  by_cases h : 1 ≤ fee ∧ fee ≤ 100 ∧ 1 ≤ mp ∧ mp ≤ 8
  · simp [createSession, key.mpr h, h]
  · have hb : ((1 ≤ fee && fee ≤ 100) && (1 ≤ mp && mp ≤ 8)) = false := by
      rw [← Bool.not_eq_true]
      exact fun hb => h (key.mp hb)
    simp [createSession, hb, h]

/-- Witness for C5 at an in-bounds input (fee 5.00, maxPlayers 4) and an
out-of-bounds input (fee 0.50). -/
theorem createSession_validates_bounds_witness :
    createSession 5 (some 4) = .created 5 (some 4) ∧
    createSession (1/2) (some 4) = .validationError 400 "VALIDATION_ERROR" := by
  constructor
  · exact (createSession_validates_bounds 5 4).1.mpr (by norm_num)
  · exact (createSession_validates_bounds (1/2) 4).2.mpr (by norm_num)

/-- Claim C4 (code_bug evidence): requireTokens performs no lazy midnight
reset. In the claim's boundary scenario — a user who consumed their third
token at 23:59:59 UTC (lastTokenReset = 86399000 ms) and attempts a fourth
join at 00:00:01 UTC the next day (now = 86401000 ms) — now is past
getNextMidnightUTC of the last reset, yet the gate denies with 403
NO_TOKENS_REMAINING and available = 0 instead of resetting the count to 3
and admitting the request. -/
theorem requireTokens_no_midnight_reset :
    getNextMidnightUTC 86399000 ≤ 86401000 ∧
    requireTokens 1 ⟨0, 86399000⟩ 86401000 =
      .deny 403 "NO_TOKENS_REMAINING" 1 0 172800000 := by
  constructor
  · decide
  · decide

/-- Claim C6: a join attempt by a user with tokensRemaining = 0 fails with
HTTP 403 and code NO_TOKENS_REMAINING, and — since the gate short-circuits
before any handler runs — no Participant row is created and no entry-fee
debit transaction is issued, whatever the downstream handler would have
done. -/
theorem gatedJoin_no_tokens_rejected
    (handler : JoinStore → JoinStore × HttpReply) (st : JoinStore) (now : ℤ)
    (h : st.user.tokensRemaining = 0) :
    gatedJoin handler st now = (st, .err 403 "NO_TOKENS_REMAINING") ∧
    (gatedJoin handler st now).1.participants = st.participants ∧
    (gatedJoin handler st now).1.transactions = st.transactions := by
  have hlt : st.user.tokensRemaining < 1 := by omega
  refine ⟨?_, ?_, ?_⟩ <;> simp [gatedJoin, requireTokens, hlt]

/-- Witness for C6: a zero-token user, a handler that would insert a
Participant row and an entry-fee debit, and the observed rejection leaving
the store unchanged. -/
theorem gatedJoin_no_tokens_rejected_witness :
    (JoinStore.mk ⟨0, 0⟩ [] []).user.tokensRemaining = 0 ∧
    gatedJoin
      (fun s =>
        (⟨s.user, ("s1", "u1") :: s.participants,
          ⟨"u1", some "s1", -10, .ENTRY_FEE⟩ :: s.transactions⟩, .ok))
      ⟨⟨0, 0⟩, [], []⟩ 86401000 =
      (⟨⟨0, 0⟩, [], []⟩, .err 403 "NO_TOKENS_REMAINING") := by
  exact ⟨rfl,
    (gatedJoin_no_tokens_rejected _ ⟨⟨0, 0⟩, [], []⟩ 86401000 rfl).1⟩

/-- Claim C7: when the balance b is below the required amount r, the credit
gate fails with HTTP 403, code INSUFFICIENT_CREDITS, and reports the deficit
r - b. -/
theorem requireCredits_reports_deficit (r b : ℚ) (h : b < r) :
    requireCredits r b = .deny 403 "INSUFFICIENT_CREDITS" r b (r - b) := by
  simp [requireCredits, h]

/-- Witness for C7: a user with balance 5.00 gated on required amount 10.00
is rejected with reported deficit 5.00. -/
theorem requireCredits_reports_deficit_witness :
    (5 : ℚ) < 10 ∧
    requireCredits 10 5 = .deny 403 "INSUFFICIENT_CREDITS" 10 5 5 := by
  refine ⟨by norm_num, ?_⟩
  have h := requireCredits_reports_deficit 10 5 (by norm_num)
  norm_num at h
  exact h

/-- Claim C8: POST /api/user/tokens/reset is idempotent. If the caller's
tokens were already reset today (lastTokenReset at or after today's UTC
midnight) the call leaves the row unchanged; otherwise it sets
tokensRemaining to the daily cap 3 (and lastTokenReset to now); and a second
call within the same UTC day (same midnight) has no further state effect. -/
theorem tokensReset_idempotent (u : TokenRow) (t₁ t₂ : ℤ)
    (h : getMidnightUTC t₁ = getMidnightUTC t₂) :
    (getMidnightUTC t₁ ≤ u.lastTokenReset → (tokensResetHandler u t₁).1 = u) ∧
    (u.lastTokenReset < getMidnightUTC t₁ →
      (tokensResetHandler u t₁).1 = ⟨3, t₁⟩) ∧
    (tokensResetHandler (tokensResetHandler u t₁).1 t₂).1 =
      (tokensResetHandler u t₁).1 := by
  have hle : getMidnightUTC t₁ ≤ t₁ := by
    unfold getMidnightUTC msPerDay; omega
  refine ⟨?_, ?_, ?_⟩
  · intro hr
    simp [tokensResetHandler, hr]
  · intro hr
    simp [tokensResetHandler, not_le.mpr hr]
  · by_cases hr : getMidnightUTC t₁ ≤ u.lastTokenReset
    · have e₁ : (tokensResetHandler u t₁).1 = u := by
        simp [tokensResetHandler, hr]
      rw [e₁]
      have hr₂ : getMidnightUTC t₂ ≤ u.lastTokenReset := h ▸ hr
      simp [tokensResetHandler, hr₂]
    · have e₁ : (tokensResetHandler u t₁).1 = ⟨3, t₁⟩ := by
        simp [tokensResetHandler, hr]
      rw [e₁]
      have hr₂ : getMidnightUTC t₂ ≤ t₁ := h ▸ hle
      simp [tokensResetHandler, hr₂]

/-- Witness for C8: a user last reset at instant 100 (before the current
day's midnight 86400000), a first call at 00:00:01 which resets the count to
3, and a second call one second later the same day which changes nothing. -/
theorem tokensReset_idempotent_witness :
    getMidnightUTC 86401000 = getMidnightUTC 86402000 ∧
    (tokensResetHandler ⟨0, 100⟩ 86401000).1 = ⟨3, 86401000⟩ ∧
    (tokensResetHandler (tokensResetHandler ⟨0, 100⟩ 86401000).1 86402000).1 =
      (tokensResetHandler ⟨0, 100⟩ 86401000).1 := by
  refine ⟨by decide, ?_, ?_⟩
  · exact (tokensReset_idempotent ⟨0, 100⟩ 86401000 86402000 (by decide)).2.1
      (by decide)
  · exact (tokensReset_idempotent ⟨0, 100⟩ 86401000 86402000 (by decide)).2.2

/-- Claim C3: the transitions performed by the session operations (start,
complete, cancel) are exactly the legal ones — WAITING → STARTING → ACTIVE →
COMPLETED plus non-terminal → CANCELLED — and the terminal states COMPLETED
and CANCELLED admit no outgoing transition. -/
theorem sessionStatus_legal_transitions :
    ∀ a b : SessionStatus,
      opTransition a b = legalTransition a b ∧
      legalTransition .COMPLETED b = false ∧
      legalTransition .CANCELLED b = false := by
  decide

/-- Claim C2: settlement executes at most once per session. Starting from a
state where the session is unsettled and carries no split transactions, a
second settle call is a no-op equal to the first, and the split transactions
recorded for the session after two calls number exactly three — never six. -/
theorem settle_at_most_once (s : String) (pool : ℕ) (d c w : String)
    (st : SettlementState) (hflag : s ∉ st.settledSessions)
    (hclean : splitTxnsFor s st.transactions = []) :
    settle s pool d c w (settle s pool d c w st) = settle s pool d c w st ∧
    (splitTxnsFor s
      (settle s pool d c w (settle s pool d c w st)).transactions).length = 3 := by
  have h₁ : settle s pool d c w st =
      { settledSessions := s :: st.settledSessions
        transactions :=
          ⟨d, some s, ((settlementSplit pool).1 : ℚ) / 100, .DEVELOPER_SPLIT⟩ ::
          ⟨c, some s, ((settlementSplit pool).2.1 : ℚ) / 100, .CREATOR_SPLIT⟩ ::
          ⟨w, some s, ((settlementSplit pool).2.2 : ℚ) / 100, .PRIZE_PAYOUT⟩ ::
          st.transactions } := by
    simp [settle, hflag]
  have h₂ : settle s pool d c w (settle s pool d c w st) =
      settle s pool d c w st := by
    rw [h₁, settle]
    simp
  refine ⟨h₂, ?_⟩
  rw [h₂, h₁]
  simp only [splitTxnsFor] at hclean ⊢
  simp [List.filter_cons, hclean]

/-- Witness for C2: settling the session "s1" with a 20.00 pool twice from
the empty ledger yields the same state as settling once, with exactly three
split transactions for "s1". -/
theorem settle_at_most_once_witness :
    ("s1" ∉ (SettlementState.mk [] []).settledSessions) ∧
    splitTxnsFor "s1" (SettlementState.mk [] []).transactions = [] ∧
    (settle "s1" 2000 "dev" "creator" "winner"
        (settle "s1" 2000 "dev" "creator" "winner" ⟨[], []⟩) =
      settle "s1" 2000 "dev" "creator" "winner" ⟨[], []⟩) ∧
    (splitTxnsFor "s1"
      (settle "s1" 2000 "dev" "creator" "winner"
        (settle "s1" 2000 "dev" "creator" "winner" ⟨[], []⟩)).transactions).length = 3 := by
  have h := settle_at_most_once "s1" 2000 "dev" "creator" "winner" ⟨[], []⟩
    (by simp) rfl
  exact ⟨by simp, rfl, h.1, h.2⟩

end RoadFighter
